import Mathlib

/-!
Verification of the dead-snakes-scanner repository (src/dead_snakes_scanner.py).

The scanner parses every Python file under a root directory into an ast
syntax tree and walks it with an ast.NodeVisitor subclass (class Visitor)
that recognises obsolete Python 2 idioms and records findings
(called RELIC tuples in the source).

Shallow embedding notes:

A Python ast node is modelled by the inductive PyAst.  List-valued node
fields (Module.body, Call.args, Try.handlers, ...) are encoded with the
dedicated constructors seqNil and seqCons of the same inductive so that all
recursion stays plainly structural; seq cells are not themselves nodes.
Fields that no rule and no traversal step of the repository ever reads
(expression contexts, keyword arguments, decorator lists, import alias
details) are omitted.  Python None in an optional node field (such as
ExceptHandler.type) is the constructor noneNode.

Runtime exceptions are modelled with Except PyErr.  Two AttributeErrors
matter to this program:
  - Visitor.visit_BinOp reads node.parent, an attribute that no ast node
    has and that no code in the repository ever assigns, so evaluating it
    raises AttributeError("BinOp", "parent");
  - Visitor._add calls textwrap.get_source_segment, an attribute the
    textwrap module does not have (get_source_segment lives in the ast
    module), so evaluating it raises
    AttributeError("textwrap", "get_source_segment").

The external CPython parser is not modelled: a file on disk is represented
by the path the collector would report together with the outcome of
ast.parse on its text (Except String PyAst), which is exactly the data
scan_path consumes after its try/except around ast.parse.
-/

/-- The binary operator of an ast.BinOp node; the scanner only ever tests
isinstance(node.op, ast.Mod). -/
inductive PyBinOp where
  | mod
  | add
  | sub
  | mult
deriving DecidableEq, Repr

/-- Python ast nodes, with list fields encoded by seqNil / seqCons cells. -/
inductive PyAst where
  | seqNil
  | seqCons (head tail : PyAst)
  | module (body : PyAst)
  | exprStmt (value : PyAst) (line col : Nat)
  | assign (target value : PyAst) (line col : Nat)
  | binOp (left : PyAst) (op : PyBinOp) (right : PyAst) (line col : Nat)
  | call (func args : PyAst) (line col : Nat)
  | attribute (value : PyAst) (attr : String) (line col : Nat)
  | name (id : String) (line col : Nat)
  | strLit (s : String) (line col : Nat)
  | numLit (n : Nat) (line col : Nat)
  | dictLit (keys values : PyAst) (line col : Nat)
  | forStmt (target iter body orelse : PyAst) (line col : Nat)
  | tryStmt (body handlers orelse finalbody : PyAst) (line col : Nat)
  | exceptHandler (htype : PyAst) (hname : Option String) (body : PyAst) (line col : Nat)
  | noneNode
  | passStmt (line col : Nat)
  | importStmt (line col : Nat)
  | printStmt (values : PyAst) (line col : Nat)
deriving DecidableEq, Repr

/-- RELIC = Tuple[str, int, int, str, str]: file, line, col, relic kind, snippet. -/
abbrev RELIC := String × Nat × Nat × String × String

/-- The runtime exceptions this program can actually raise during a scan:
AttributeError on reading a missing attribute (object, attribute name). -/
inductive PyErr where
  | attributeError (obj attrName : String)
deriving DecidableEq, Repr

/-- The relic kind of a RELIC tuple (its fourth component). -/
def relicKind (r : RELIC) : String := r.2.2.2.1

/-- The file of a RELIC tuple (its first component). -/
def relicFile (r : RELIC) : String := r.1

/-- The three legacy dictionary-iteration method names tested by
Visitor.visit_Attribute. -/
def legacyIters : List String := ["iteritems", "iterkeys", "itervalues"]

/-- The three legacy identifiers tested by Visitor.visit_Name. -/
def legacyNames : List String := ["xrange", "basestring", "unicode"]

/-- The receiver test of the os.path.join rule:
isinstance(node.value, ast.Attribute) and node.value.attr == "path". -/
def isPathAttr : PyAst → Bool
  | .attribute _ a _ _ => a == "path"
  | _ => false

/-- Python truthiness of the Optional[str] field ExceptHandler.name, as used
by the condition node.name and isinstance(node.name, str). -/
def nameTruthy : Option String → Bool
  | none => false
  | some s => s != ""

/-- Rendering of the name field inside ast.dump output (string quoting of
ast.dump is elided; only the commas of the dump text matter to the code). -/
def dumpOptName : Option String → String
  | none => "None"
  | some s => s

/-- The operator part of ast.dump output. -/
def dumpOp : PyBinOp → String
  | .mod => "Mod()"
  | .add => "Add()"
  | .sub => "Sub()"
  | .mult => "Mult()"

/-- Model of ast.dump(node): the textual field-by-field rendering of a node.
Fields are joined by a comma and a space exactly as ast.dump does; the only
use the scanner makes of this text is the membership test for a comma in
Visitor.visit_ExceptHandler. -/
def astDump : PyAst → String
  | .seqNil => ""
  | .seqCons h .seqNil => astDump h
  | .seqCons h t => astDump h ++ ", " ++ astDump t
  | .module b => "Module(body=[" ++ astDump b ++ "], type_ignores=[])"
  | .exprStmt v _ _ => "Expr(value=" ++ astDump v ++ ")"
  | .assign t v _ _ => "Assign(targets=[" ++ astDump t ++ "], value=" ++ astDump v ++ ")"
  | .binOp l op r _ _ =>
      "BinOp(left=" ++ astDump l ++ ", op=" ++ dumpOp op ++ ", right=" ++ astDump r ++ ")"
  | .call f a _ _ => "Call(func=" ++ astDump f ++ ", args=[" ++ astDump a ++ "], keywords=[])"
  | .attribute v a _ _ => "Attribute(value=" ++ astDump v ++ ", attr=" ++ a ++ ", ctx=Load())"
  | .name i _ _ => "Name(id=" ++ i ++ ", ctx=Load())"
  | .strLit s _ _ => "Constant(value=" ++ s ++ ")"
  | .numLit n _ _ => "Constant(value=" ++ toString n ++ ")"
  | .dictLit k v _ _ => "Dict(keys=[" ++ astDump k ++ "], values=[" ++ astDump v ++ "])"
  | .forStmt t i b o _ _ =>
      "For(target=" ++ astDump t ++ ", iter=" ++ astDump i ++ ", body=[" ++ astDump b
        ++ "], orelse=[" ++ astDump o ++ "])"
  | .tryStmt b h o f _ _ =>
      "Try(body=[" ++ astDump b ++ "], handlers=[" ++ astDump h ++ "], orelse=[" ++ astDump o
        ++ "], finalbody=[" ++ astDump f ++ "])"
  | .exceptHandler ty nm b _ _ =>
      "ExceptHandler(type=" ++ astDump ty ++ ", name=" ++ dumpOptName nm ++ ", body=["
        ++ astDump b ++ "])"
  | .noneNode => "None"
  | .passStmt _ _ => "Pass()"
  | .importStmt _ _ => "Import(names=[alias(name=os)])"
  | .printStmt v _ _ => "Print(dest=None, values=[" ++ astDump v ++ "], nl=True)"

/-- Model of the Python substring test s1 in s2 for the one-character
string consisting of a comma. -/
def strContainsComma (s : String) : Bool := s.data.any (fun ch => ch == ',')

/-- Model of Visitor._add.  The source builds the RELIC tuple
(filename, lineno, col_offset, relic, snippet or
textwrap.get_source_segment(snippet or "", node) or "") and appends it to
self.out.  The textwrap module has no attribute get_source_segment (the
function lives in the ast module), so whenever the snippet argument is
falsy - and every call site of _add in the Visitor leaves it at its None
default - evaluating the tuple raises AttributeError before anything is
appended. -/
def addRelic (filename : String) (line col : Nat) (relic : String)
    (snippet : Option String) (out : List RELIC) : Except PyErr (List RELIC) :=
  match snippet with
  | some s =>
      if s == "" then .error (.attributeError "textwrap" "get_source_segment")
      else .ok (out ++ [(filename, line, col, relic, s)])
  | none => .error (.attributeError "textwrap" "get_source_segment")

/-- Model of Visitor.visit (the ast.NodeVisitor dispatcher) threading the
self.out list.  Node kinds with a visit_X override (BinOp, Attribute, Name,
ExceptHandler, Print) run that method; every other kind runs generic_visit,
which visits the child fields in ast field order.  seqNil / seqCons cells
sequence the elements of a list field.

visit_BinOp on a Mod operator evaluates node.parent, an attribute no ast
node possesses (nothing in the repository ever sets it), so it raises
AttributeError("BinOp", "parent") before any suppression test or _add call;
on any other operator it just falls through to generic_visit.

visit_Name and visit_ExceptHandler and visit_Print do not call
generic_visit, so their children are never traversed. -/
def pyVisit (filename : String) : PyAst → List RELIC → Except PyErr (List RELIC)
  | .seqNil, out => .ok out
  | .seqCons h t, out =>
      match pyVisit filename h out with
      | .error e => .error e
      | .ok out1 => pyVisit filename t out1
  | .module b, out => pyVisit filename b out
  | .exprStmt v _ _, out => pyVisit filename v out
  | .assign t v _ _, out =>
      match pyVisit filename t out with
      | .error e => .error e
      | .ok out1 => pyVisit filename v out1
  | .binOp l op r _ _, out =>
      if op == PyBinOp.mod then .error (.attributeError "BinOp" "parent")
      else
        match pyVisit filename l out with
        | .error e => .error e
        | .ok out1 => pyVisit filename r out1
  | .call f a _ _, out =>
      match pyVisit filename f out with
      | .error e => .error e
      | .ok out1 => pyVisit filename a out1
  | .attribute v attr line col, out =>
      match (if legacyIters.contains attr then addRelic filename line col attr none out
             else .ok out) with
      | .error e => .error e
      | .ok out1 =>
          match (if attr == "join" && isPathAttr v then
                   addRelic filename line col "os.path.join" none out1
                 else .ok out1) with
          | .error e => .error e
          | .ok out2 => pyVisit filename v out2
  | .name id line col, out =>
      if legacyNames.contains id then addRelic filename line col id none out
      else .ok out
  | .strLit _ _ _, out => .ok out
  | .numLit _ _ _, out => .ok out
  | .dictLit k v _ _, out =>
      match pyVisit filename k out with
      | .error e => .error e
      | .ok out1 => pyVisit filename v out1
  | .forStmt t i b o _ _, out =>
      match pyVisit filename t out with
      | .error e => .error e
      | .ok out1 =>
          match pyVisit filename i out1 with
          | .error e => .error e
          | .ok out2 =>
              match pyVisit filename b out2 with
              | .error e => .error e
              | .ok out3 => pyVisit filename o out3
  | .tryStmt b h o f _ _, out =>
      match pyVisit filename b out with
      | .error e => .error e
      | .ok out1 =>
          match pyVisit filename h out1 with
          | .error e => .error e
          | .ok out2 =>
              match pyVisit filename o out2 with
              | .error e => .error e
              | .ok out3 => pyVisit filename f out3
  | .exceptHandler ty nm b line col, out =>
      if nameTruthy nm && strContainsComma (astDump (.exceptHandler ty nm b line col)) then
        addRelic filename line col "except E, e:" none out
      else .ok out
  | .noneNode, out => .ok out
  | .passStmt _ _, out => .ok out
  | .importStmt _ _, out => .ok out
  | .printStmt _ line col, out => addRelic filename line col "print statement" none out

/-- Model of Visitor(filename, tree).run(): visit the tree starting from an
empty self.out and return the accumulated findings, or the exception the
traversal raised. -/
def Visitor.run (filename : String) (tree : PyAst) : Except PyErr (List RELIC) :=
  pyVisit filename tree []

/-- Model of the rglob("*.py") name test: the fnmatch pattern *.py accepts
exactly the names whose last three characters are ".py" (computed on the
character list so that it evaluates inside the kernel). -/
def matchesPyPattern (p : String) : Bool := p.data.reverse.take 3 == ['y', 'p', '.']

/-- One file the collector can encounter: the path str(py) that findings
would report, and the outcome of ast.parse on the file's text (the parser
itself is the external ast library). -/
structure PyFile where
  path : String
  parse : Except String PyAst

/-- Model of scan_path: walk the files in traversal order, keep those whose
name matches the rglob pattern *.py, silently skip any file whose read or
parse raised (the try/except in the source wraps only
ast.parse(py.read_text(), ...)), and concatenate each remaining file's
Visitor(...).run() output.  An exception raised by the traversal itself is
not caught: it propagates out of the generator when main's
list(scan_path(path)) consumes it, discarding all findings. -/
def scanPath : List PyFile → Except PyErr (List RELIC)
  | [] => .ok []
  | f :: rest =>
      if matchesPyPattern f.path then
        match f.parse with
        | .error _ => scanPath rest
        | .ok tree =>
            match Visitor.run f.path tree with
            | .error e => .error e
            | .ok rs =>
                match scanPath rest with
                | .error e => .error e
                | .ok more => .ok (rs ++ more)
      else scanPath rest

/-- Model of main given the collector's outcome on the target directory.
main returns 2 when the argument vector does not have exactly one entry, or
when its single entry is -h or --help (the scan never starts in that case,
so the result ignores the scan outcome entirely); otherwise it consumes
list(scan_path(path)) - propagating any exception the scan raised - and
returns 1 when findings are present and 0 when there are none.  The output
rendering, the optional git clone and the PR-comment plumbing are I/O
around this decision and do not affect the returned status. -/
def mainWith (argv : List String) (scanResult : Except PyErr (List RELIC)) :
    Except PyErr Nat :=
  match argv with
  | [a] =>
      if a = "-h" ∨ a = "--help" then .ok 2
      else
        match scanResult with
        | .error e => .error e
        | .ok relics => .ok (if relics = [] then 0 else 1)
  | _ => .ok 2

/-- main on a local target path whose directory tree holds the given files. -/
def mainModel (argv : List String) (files : List PyFile) : Except PyErr Nat :=
  mainWith argv (scanPath files)

/-- Shorthand turning a Lean list of nodes into seqCons / seqNil cells. -/
def pseq : List PyAst → PyAst
  | [] => .seqNil
  | h :: t => .seqCons h (pseq t)

/-- The tree of a file whose whole text is the single statement xrange(5). -/
def xrangeTree : PyAst :=
  .module (pseq [.exprStmt (.call (.name "xrange" 1 0) (pseq [.numLit 5 1 7]) 1 0) 1 0])


/-- The intended tree of the repository test's TEST_CODE file, as the
Python 2 style grammar the test presupposes would parse it: a standalone
print statement, print(x) as an ordinary call, the three legacy iteration
loops, one percent formatting assignment, os.path.join, the three legacy
identifiers, and the comma-form exception handler bound to the name e.
Line numbers follow the dedented test text, whose first line is blank. -/
def goldenTree : PyAst :=
  .module (pseq [
    .assign (.name "x" 2 0) (.dictLit (pseq [.strLit "a" 2 5]) (pseq [.numLit 1 2 9]) 2 4) 2 0,
    .printStmt (pseq [.name "x" 3 6]) 3 0,
    .exprStmt (.call (.name "print" 4 0) (pseq [.name "x" 4 6]) 4 0) 4 0,
    .forStmt (.name "k" 5 4) (.call (.attribute (.name "x" 5 9) "iterkeys" 5 9) .seqNil 5 9)
      (pseq [.passStmt 6 4]) .seqNil 5 0,
    .forStmt (.name "v" 7 4) (.call (.attribute (.name "x" 7 9) "itervalues" 7 9) .seqNil 7 9)
      (pseq [.passStmt 8 4]) .seqNil 7 0,
    .forStmt (.name "kv" 9 4) (.call (.attribute (.name "x" 9 10) "iteritems" 9 10) .seqNil 9 10)
      (pseq [.passStmt 10 4]) .seqNil 9 0,
    .assign (.name "y" 11 0) (.binOp (.strLit "hello %s" 11 4) .mod (.strLit "world" 11 17) 11 4) 11 0,
    .importStmt 12 0,
    .exprStmt (.call (.attribute (.attribute (.name "os" 13 0) "path" 13 0) "join" 13 0)
      (pseq [.strLit "a" 13 13, .strLit "b" 13 17]) 13 0) 13 0,
    .exprStmt (.call (.name "xrange" 14 0) (pseq [.numLit 5 14 7]) 14 0) 14 0,
    .exprStmt (.name "basestring" 15 0) 15 0,
    .exprStmt (.call (.name "unicode" 16 0) (pseq [.strLit "x" 16 8]) 16 0) 16 0,
    .tryStmt (pseq [.passStmt 18 4])
      (pseq [.exceptHandler (.name "Exception" 19 7) (some "e") (pseq [.passStmt 20 4]) 19 0])
      .seqNil .seqNil 17 0])

/-- The tree of a file whose single statement is log.debug("%s" % x): a
modulo expression that is the sole argument of a call whose member name is
exactly debug. -/
def debugCallTree : PyAst :=
  .module (pseq [
    .exprStmt (.call (.attribute (.name "log" 1 0) "debug" 1 0)
      (pseq [.binOp (.strLit "%s" 1 10) .mod (.name "x" 1 17) 1 10]) 1 0) 1 0])

/-- The tree of a file whose single statement is log.info("%s" % x): the
same modulo expression passed to a call named info instead of debug. -/
def infoCallTree : PyAst :=
  .module (pseq [
    .exprStmt (.call (.attribute (.name "log" 1 0) "info" 1 0)
      (pseq [.binOp (.strLit "%s" 1 9) .mod (.name "x" 1 16) 1 9]) 1 0) 1 0])

/-- The tree of a file whose only construct of interest is a modern
exception handler that binds a name: try: pass / except Exception as e: pass. -/
def modernHandlerTree : PyAst :=
  .module (pseq [
    .tryStmt (pseq [.passStmt 2 4])
      (pseq [.exceptHandler (.name "Exception" 3 7) (some "e") (pseq [.passStmt 4 4]) 3 0])
      .seqNil .seqNil 1 0])

/-- The tree of a file with a legacy identifier hidden inside the body of
an exception handler that binds no name:
try: pass / except Exception: xrange(5). -/
def handlerHiddenTree : PyAst :=
  .module (pseq [
    .tryStmt (pseq [.passStmt 2 4])
      (pseq [.exceptHandler (.name "Exception" 3 7) none
        (pseq [.exprStmt (.call (.name "xrange" 4 4) (pseq [.numLit 5 4 11]) 4 4) 4 4]) 3 0])
      .seqNil .seqNil 1 0])

/-- The tree of a clean modern file: os.getcwd() inside a for loop and a
try with a bare except handler. -/
def cleanFileTree : PyAst :=
  .module (pseq [
    .forStmt (.name "i" 1 4) (.call (.name "range" 1 9) (pseq [.numLit 3 1 15]) 1 9)
      (pseq [.exprStmt (.call (.attribute (.name "os" 2 4) "getcwd" 2 4) .seqNil 2 4) 2 4])
      .seqNil 1 0,
    .tryStmt (pseq [.passStmt 4 4])
      (pseq [.exceptHandler (.name "Exception" 5 7) none (pseq [.passStmt 6 4]) 5 0])
      .seqNil .seqNil 3 0])

/-- The ten relic kind strings the Visitor rules name. -/
def relicKinds : List String :=
  ["% formatting", "iteritems", "iterkeys", "itervalues", "os.path.join",
   "xrange", "basestring", "unicode", "except E, e:", "print statement"]

/-- Every Python node of a tree in pre-order document order (seq cells and
the None placeholder are not nodes). -/
def allNodes : PyAst → List PyAst
  | .seqNil => []
  | .seqCons h t => allNodes h ++ allNodes t
  | .module b => .module b :: allNodes b
  | .exprStmt v l c => .exprStmt v l c :: allNodes v
  | .assign t v l c => .assign t v l c :: (allNodes t ++ allNodes v)
  | .binOp lf op r l c => .binOp lf op r l c :: (allNodes lf ++ allNodes r)
  | .call f a l c => .call f a l c :: (allNodes f ++ allNodes a)
  | .attribute v a l c => .attribute v a l c :: allNodes v
  | .name i l c => [.name i l c]
  | .strLit s l c => [.strLit s l c]
  | .numLit n l c => [.numLit n l c]
  | .dictLit k v l c => .dictLit k v l c :: (allNodes k ++ allNodes v)
  | .forStmt t i b o l c =>
      .forStmt t i b o l c :: (allNodes t ++ allNodes i ++ allNodes b ++ allNodes o)
  | .tryStmt b h o f l c =>
      .tryStmt b h o f l c :: (allNodes b ++ allNodes h ++ allNodes o ++ allNodes f)
  | .exceptHandler ty nm b l c => .exceptHandler ty nm b l c :: (allNodes ty ++ allNodes b)
  | .noneNode => []
  | .passStmt l c => [.passStmt l c]
  | .importStmt l c => [.importStmt l c]
  | .printStmt v l c => .printStmt v l c :: allNodes v

/-- Formalisation of the specification's listed obsolete constructs: a tree
contains one exactly when some node of it is a modulo BinOp, an attribute
access with a legacy iteration member name, an attribute access shaped
X.path.join, a simple name that is one of the three legacy identifiers, or
a legacy standalone print statement node. -/
def hasListedConstruct : PyAst → Bool
  | .seqNil => false
  | .seqCons h t => hasListedConstruct h || hasListedConstruct t
  | .module b => hasListedConstruct b
  | .exprStmt v _ _ => hasListedConstruct v
  | .assign t v _ _ => hasListedConstruct t || hasListedConstruct v
  | .binOp l op r _ _ => op == PyBinOp.mod || hasListedConstruct l || hasListedConstruct r
  | .call f a _ _ => hasListedConstruct f || hasListedConstruct a
  | .attribute v attr _ _ =>
      legacyIters.contains attr || (attr == "join" && isPathAttr v) || hasListedConstruct v
  | .name i _ _ => legacyNames.contains i
  | .strLit _ _ _ => false
  | .numLit _ _ _ => false
  | .dictLit k v _ _ => hasListedConstruct k || hasListedConstruct v
  | .forStmt t i b o _ _ =>
      hasListedConstruct t || hasListedConstruct i || hasListedConstruct b || hasListedConstruct o
  | .tryStmt b h o f _ _ =>
      hasListedConstruct b || hasListedConstruct h || hasListedConstruct o || hasListedConstruct f
  | .exceptHandler ty _ b _ _ => hasListedConstruct ty || hasListedConstruct b
  | .noneNode => false
  | .passStmt _ _ => false
  | .importStmt _ _ => false
  | .printStmt _ _ _ => true

/-- Whether some exception handler of the tree binds a name (the modern
except E as e form or the legacy comma form both do). -/
def hasNamedHandler : PyAst → Bool
  | .seqNil => false
  | .seqCons h t => hasNamedHandler h || hasNamedHandler t
  | .module b => hasNamedHandler b
  | .exprStmt v _ _ => hasNamedHandler v
  | .assign t v _ _ => hasNamedHandler t || hasNamedHandler v
  | .binOp l _ r _ _ => hasNamedHandler l || hasNamedHandler r
  | .call f a _ _ => hasNamedHandler f || hasNamedHandler a
  | .attribute v _ _ _ => hasNamedHandler v
  | .name _ _ _ => false
  | .strLit _ _ _ => false
  | .numLit _ _ _ => false
  | .dictLit k v _ _ => hasNamedHandler k || hasNamedHandler v
  | .forStmt t i b o _ _ =>
      hasNamedHandler t || hasNamedHandler i || hasNamedHandler b || hasNamedHandler o
  | .tryStmt b h o f _ _ =>
      hasNamedHandler b || hasNamedHandler h || hasNamedHandler o || hasNamedHandler f
  | .exceptHandler ty nm b _ _ => nameTruthy nm || hasNamedHandler ty || hasNamedHandler b
  | .noneNode => false
  | .passStmt _ _ => false
  | .importStmt _ _ => false
  | .printStmt v _ _ => hasNamedHandler v


/-- The ast.dump text of any exception handler node contains a comma: the
dump joins the type, name and body fields with a comma and a space. -/
theorem dump_handler_comma (ty : PyAst) (nm : Option String) (b : PyAst) (l c : Nat) :
    strContainsComma (astDump (.exceptHandler ty nm b l c)) = true := by
  simp [strContainsComma, astDump, String.data_append, List.any_append]

/-- A traversal step that returns normally leaves self.out unchanged: every
call to _add raises before appending, so the accumulated list can only stay
what it was. -/
theorem pyVisit_ok_out (f : String) :
    ∀ (t : PyAst) (out out2 : List RELIC), pyVisit f t out = Except.ok out2 → out2 = out := by
  intro t
  induction t with
  | seqNil =>
      intro out out2 h
      simp only [pyVisit] at h
      exact (Except.ok.inj h).symm
  | seqCons h1 t1 ih1 ih2 =>
      intro out out2 h
      simp only [pyVisit] at h
      split at h
      · simp at h
      · rename_i o1 ho1
        exact (ih2 _ _ h).trans (ih1 _ _ ho1)
  | module b ih =>
      intro out out2 h
      simp only [pyVisit] at h
      exact ih _ _ h
  | exprStmt v l c ih =>
      intro out out2 h
      simp only [pyVisit] at h
      exact ih _ _ h
  | assign t1 v1 l c iht ihv =>
      intro out out2 h
      simp only [pyVisit] at h
      split at h
      · simp at h
      · rename_i o1 ho1
        exact (ihv _ _ h).trans (iht _ _ ho1)
  | binOp l1 op r1 l c ihl ihr =>
      intro out out2 h
      simp only [pyVisit] at h
      split at h
      · simp at h
      · split at h
        · simp at h
        · rename_i o1 ho1
          exact (ihr _ _ h).trans (ihl _ _ ho1)
  | call f1 a1 l c ihf iha =>
      intro out out2 h
      simp only [pyVisit] at h
      split at h
      · simp at h
      · rename_i o1 ho1
        exact (iha _ _ h).trans (ihf _ _ ho1)
  | «attribute» v attr l c ihv =>
      intro out out2 h
      simp only [pyVisit] at h
      split at h
      · simp at h
      · rename_i o1 ho1
        split at h
        · simp at h
        · rename_i o2 ho2
          split at ho1
          · simp [addRelic] at ho1
          · split at ho2
            · simp [addRelic] at ho2
            · exact (ihv _ _ h).trans ((Except.ok.inj ho2).symm.trans (Except.ok.inj ho1).symm)
  | name i l c =>
      intro out out2 h
      simp only [pyVisit] at h
      split at h
      · simp [addRelic] at h
      · exact (Except.ok.inj h).symm
  | strLit s l c =>
      intro out out2 h
      simp only [pyVisit] at h
      exact (Except.ok.inj h).symm
  | numLit n l c =>
      intro out out2 h
      simp only [pyVisit] at h
      exact (Except.ok.inj h).symm
  | dictLit k1 v1 l c ihk ihv =>
      intro out out2 h
      simp only [pyVisit] at h
      split at h
      · simp at h
      · rename_i o1 ho1
        exact (ihv _ _ h).trans (ihk _ _ ho1)
  | forStmt t1 i1 b1 o1 l c iht ihi ihb iho =>
      intro out out2 h
      simp only [pyVisit] at h
      split at h
      · simp at h
      · rename_i x1 hx1
        split at h
        · simp at h
        · rename_i x2 hx2
          split at h
          · simp at h
          · rename_i x3 hx3
            exact (((iho _ _ h).trans (ihb _ _ hx3)).trans (ihi _ _ hx2)).trans (iht _ _ hx1)
  | tryStmt b1 h1 o1 f1 l c ihb ihh iho ihf =>
      intro out out2 h
      simp only [pyVisit] at h
      split at h
      · simp at h
      · rename_i x1 hx1
        split at h
        · simp at h
        · rename_i x2 hx2
          split at h
          · simp at h
          · rename_i x3 hx3
            exact (((ihf _ _ h).trans (iho _ _ hx3)).trans (ihh _ _ hx2)).trans (ihb _ _ hx1)
  | exceptHandler ty nm b1 l c ihty ihb =>
      intro out out2 h
      simp only [pyVisit] at h
      split at h
      · simp [addRelic] at h
      · exact (Except.ok.inj h).symm
  | noneNode =>
      intro out out2 h
      simp only [pyVisit] at h
      exact (Except.ok.inj h).symm
  | passStmt l c =>
      intro out out2 h
      simp only [pyVisit] at h
      exact (Except.ok.inj h).symm
  | importStmt l c =>
      intro out out2 h
      simp only [pyVisit] at h
      exact (Except.ok.inj h).symm
  | printStmt v l c ih =>
      intro out out2 h
      simp only [pyVisit] at h
      simp [addRelic] at h

/-- On a tree that contains none of the listed obsolete constructs and no
name-binding exception handler, every visit returns normally and adds
nothing: no rule predicate fires, so _add is never reached. -/
theorem pyVisit_clean (f : String) :
    ∀ (t : PyAst), hasListedConstruct t = false → hasNamedHandler t = false →
      ∀ (out : List RELIC), pyVisit f t out = Except.ok out := by
  intro t
  induction t with
  | seqNil => intro _ _ out; simp [pyVisit]
  | seqCons h1 t1 ih1 ih2 =>
      intro hL hN out
      simp only [hasListedConstruct, hasNamedHandler, Bool.or_eq_false_iff] at hL hN
      simp only [pyVisit, ih1 hL.1 hN.1 out]
      exact ih2 hL.2 hN.2 out
  | module b ih =>
      intro hL hN out
      simp only [hasListedConstruct, hasNamedHandler] at hL hN
      simp only [pyVisit]
      exact ih hL hN out
  | exprStmt v l c ih =>
      intro hL hN out
      simp only [hasListedConstruct, hasNamedHandler] at hL hN
      simp only [pyVisit]
      exact ih hL hN out
  | assign t1 v1 l c iht ihv =>
      intro hL hN out
      simp only [hasListedConstruct, hasNamedHandler, Bool.or_eq_false_iff] at hL hN
      simp only [pyVisit, iht hL.1 hN.1 out]
      exact ihv hL.2 hN.2 out
  | binOp l1 op r1 l c ihl ihr =>
      intro hL hN out
      simp only [hasListedConstruct, hasNamedHandler, Bool.or_eq_false_iff] at hL hN
      obtain ⟨⟨hop, hl⟩, hr⟩ := hL
      simp only [pyVisit, hop, Bool.false_eq_true, if_false, ihl hl hN.1 out]
      exact ihr hr hN.2 out
  | call f1 a1 l c ihf iha =>
      intro hL hN out
      simp only [hasListedConstruct, hasNamedHandler, Bool.or_eq_false_iff] at hL hN
      simp only [pyVisit, ihf hL.1 hN.1 out]
      exact iha hL.2 hN.2 out
  | «attribute» v attr l c ihv =>
      intro hL hN out
      simp only [hasListedConstruct, hasNamedHandler, Bool.or_eq_false_iff] at hL hN
      obtain ⟨⟨hiter, hjoin⟩, hv⟩ := hL
      simp only [pyVisit, hiter, hjoin, Bool.false_eq_true, if_false]
      exact ihv hv hN out
  | name i l c =>
      intro hL _ out
      simp only [hasListedConstruct] at hL
      simp only [pyVisit, hL, Bool.false_eq_true, if_false]
  | strLit s l c => intro _ _ out; simp [pyVisit]
  | numLit n l c => intro _ _ out; simp [pyVisit]
  | dictLit k1 v1 l c ihk ihv =>
      intro hL hN out
      simp only [hasListedConstruct, hasNamedHandler, Bool.or_eq_false_iff] at hL hN
      simp only [pyVisit, ihk hL.1 hN.1 out]
      exact ihv hL.2 hN.2 out
  | forStmt t1 i1 b1 o1 l c iht ihi ihb iho =>
      intro hL hN out
      simp only [hasListedConstruct, hasNamedHandler, Bool.or_eq_false_iff] at hL hN
      obtain ⟨⟨⟨hLt, hLi⟩, hLb⟩, hLo⟩ := hL
      obtain ⟨⟨⟨hNt, hNi⟩, hNb⟩, hNo⟩ := hN
      simp only [pyVisit, iht hLt hNt out, ihi hLi hNi out, ihb hLb hNb out]
      exact iho hLo hNo out
  | tryStmt b1 h1 o1 f1 l c ihb ihh iho ihf =>
      intro hL hN out
      simp only [hasListedConstruct, hasNamedHandler, Bool.or_eq_false_iff] at hL hN
      obtain ⟨⟨⟨hLb, hLh⟩, hLo⟩, hLf⟩ := hL
      obtain ⟨⟨⟨hNb, hNh⟩, hNo⟩, hNf⟩ := hN
      simp only [pyVisit, ihb hLb hNb out, ihh hLh hNh out, iho hLo hNo out]
      exact ihf hLf hNf out
  | exceptHandler ty nm b1 l c ihty ihb =>
      intro _ hN out
      simp only [hasNamedHandler, Bool.or_eq_false_iff] at hN
      obtain ⟨⟨hnm, _⟩, _⟩ := hN
      simp only [pyVisit, hnm, Bool.false_and, Bool.false_eq_true, if_false]
  | noneNode => intro _ _ out; simp [pyVisit]
  | passStmt l c => intro _ _ out; simp [pyVisit]
  | importStmt l c => intro _ _ out; simp [pyVisit]
  | printStmt v l c ih =>
      intro hL _ out
      simp only [hasListedConstruct] at hL
      exact absurd hL (by simp)

/-- A scan that returns normally returns the empty finding list: each
file's traversal either raises or contributes nothing (pyVisit_ok_out). -/
theorem scanPath_ok_nil :
    ∀ (files : List PyFile) (rs : List RELIC), scanPath files = Except.ok rs → rs = [] := by
  intro files
  induction files with
  | nil =>
      intro rs h
      simp only [scanPath] at h
      exact (Except.ok.inj h).symm
  | cons f rest ih =>
      intro rs h
      simp only [scanPath] at h
      split at h
      · split at h
        · exact ih _ h
        · rename_i tree htree
          split at h
          · simp at h
          · rename_i rs1 hrs1
            split at h
            · simp at h
            · rename_i more hmore
              have h1 : rs1 = [] := pyVisit_ok_out f.path tree [] rs1 hrs1
              have h2 : more = [] := ih _ hmore
              rw [← Except.ok.inj h, h1, h2]
              rfl
      · exact ih _ h
  
/-- scan_path reads exactly the files whose name matches the rglob pattern
*.py: dropping every other file from the walk changes nothing. -/
theorem scanPath_filter :
    ∀ (files : List PyFile),
      scanPath files = scanPath (files.filter (fun f => matchesPyPattern f.path)) := by
  intro files
  induction files with
  | nil => rfl
  | cons f rest ih =>
      by_cases hf : matchesPyPattern f.path = true
      · simp only [scanPath, List.filter_cons, hf, if_true]
        rw [ih]
      · have hf2 : matchesPyPattern f.path = false := by
          simpa using hf
        simp only [scanPath, List.filter_cons, hf2, Bool.false_eq_true, if_false]
        exact ih

/-- C1: the golden scenario. The claim (and the repository's own
test_scanner) says a file holding one instance of each of the ten legacy
constructs yields exactly 10 findings with the ten rule kinds.  The code
cannot do this: under the modern grammar the file does not parse (print x
and the comma handler are syntax errors), so the collector silently skips
it and the scan yields zero findings; and on the tree the test presupposes
(goldenTree) the very first matched node makes _add raise AttributeError
because textwrap has no attribute get_source_segment, aborting the scan. -/
theorem c1_golden_scenario_crashes :
    scanPath [⟨"repo/test.py", Except.error "SyntaxError"⟩] = Except.ok [] ∧
    Visitor.run "repo/test.py" goldenTree =
      Except.error (.attributeError "textwrap" "get_source_segment") :=
  ⟨rfl, rfl⟩

/-- C2: the debug-call suppression. The claim says a modulo expression that
is the sole argument of a .debug(...) call yields zero findings while the
same expression under .info(...) yields one percent-formatting finding.  In
the code, visit_BinOp reads node.parent, an attribute that is never set on
any ast node, so both variants raise AttributeError and abort the scan;
neither the suppression nor the finding ever happens. -/
theorem c2_debug_suppression_crashes :
    Visitor.run "app.py" debugCallTree = Except.error (.attributeError "BinOp" "parent") ∧
    Visitor.run "app.py" infoCallTree = Except.error (.attributeError "BinOp" "parent") :=
  ⟨rfl, rfl⟩

/-- C3: the snippet attribute. The claim says every finding carries the
source text spanned by the node (possibly empty) and that finding
construction never fails.  In the code, _add evaluates
textwrap.get_source_segment, which does not exist, so constructing any
finding raises AttributeError: a file whose only match is the identifier
xrange aborts the scan and no finding is ever built. -/
theorem c3_snippet_construction_raises :
    Visitor.run "lib.py" xrangeTree =
      Except.error (.attributeError "textwrap" "get_source_segment") ∧
    addRelic "lib.py" 1 0 "xrange" none [] =
      Except.error (.attributeError "textwrap" "get_source_segment") :=
  ⟨rfl, rfl⟩

/-- C4: skip-on-parse-failure with N matches. The unparsable file is indeed
silently skipped, but a clean file with N = 1 rule matches does not yield 1
finding: constructing its finding raises AttributeError and the whole scan
aborts with zero findings.  Only the N = 0 instance behaves as claimed. -/
theorem c4_skip_then_match_aborts :
    scanPath [⟨"repo/bad.py", Except.error "SyntaxError"⟩,
              ⟨"repo/good.py", Except.ok xrangeTree⟩] =
      Except.error (.attributeError "textwrap" "get_source_segment") ∧
    scanPath [⟨"repo/bad.py", Except.error "SyntaxError"⟩,
              ⟨"repo/clean.py", Except.ok cleanFileTree⟩] =
      Except.ok [] :=
  ⟨rfl, rfl⟩

/-- C5 counterexample: a tree whose exception handler body hides a matching
construct (the identifier xrange).  The visitor returns normally with zero
findings even though the xrange name node is in the tree, so the construct
inside the handler clause is neither visited nor reported, contradicting
the claim that every node is visited. -/
theorem c5_handler_body_not_visited :
    Visitor.run "a.py" handlerHiddenTree = Except.ok [] ∧
    PyAst.name "xrange" 4 4 ∈ allNodes handlerHiddenTree :=
  ⟨rfl, by decide⟩

/-- C5 amended: the traversal is deterministic pre-order recursive descent,
but visit_ExceptHandler and visit_Print do not call generic_visit, so the
children of an exception handler or of a print statement are never
descended into: the visit outcome is independent of those subtrees. -/
theorem c5_amended_handler_children_skipped :
    ∀ (f : String) (ty : PyAst) (nm : Option String) (b1 b2 : PyAst) (line col : Nat)
      (out : List RELIC),
      pyVisit f (.exceptHandler ty nm b1 line col) out =
        pyVisit f (.exceptHandler ty nm b2 line col) out ∧
      ∀ (v1 v2 : PyAst),
        pyVisit f (.printStmt v1 line col) out = pyVisit f (.printStmt v2 line col) out := by
  intro f ty nm b1 b2 line col out
  constructor
  · simp only [pyVisit, dump_handler_comma, Bool.and_true]
  · intro v1 v2
    simp only [pyVisit]

/-- C6 counterexample: a parseable file containing none of the listed
obsolete constructs whose only exception handler uses the modern
except Exception as e form.  The handler binds a name and its ast.dump text
contains commas, so the comma rule fires, _add raises AttributeError, and
main propagates the exception instead of reporting the no-findings pass
outcome. -/
theorem c6_modern_handler_flagged :
    hasListedConstruct modernHandlerTree = false ∧
    Visitor.run "repo/app.py" modernHandlerTree =
      Except.error (.attributeError "textwrap" "get_source_segment") ∧
    mainModel ["repo"] [⟨"repo/app.py", Except.ok modernHandlerTree⟩] =
      Except.error (.attributeError "textwrap" "get_source_segment") :=
  ⟨rfl, rfl, rfl⟩

/-- C6 amended: a parseable file that contains none of the listed obsolete
constructs and whose exception handlers bind no name produces zero findings,
and main returns 0 on such an input. -/
theorem c6_amended_clean_zero_findings :
    ∀ (target p : String) (t : PyAst),
      target ≠ "-h" → target ≠ "--help" →
      hasListedConstruct t = false → hasNamedHandler t = false →
      Visitor.run p t = Except.ok [] ∧
      mainModel [target] [⟨p, Except.ok t⟩] = Except.ok 0 := by
  intro target p t h1 h2 hL hN
  have hrun : Visitor.run p t = Except.ok [] := pyVisit_clean p t hL hN []
  refine ⟨hrun, ?_⟩
  have hscan : scanPath [⟨p, Except.ok t⟩] = Except.ok [] := by
    simp only [scanPath]
    split
    · simp [hrun]
    · rfl
  simp only [mainModel, mainWith, hscan]
  rw [if_neg (by simp [h1, h2])]
  simp

/-- Witness for the amended C6 at a concrete clean modern file. -/
theorem c6_amended_clean_zero_findings_witness :
    Visitor.run "repo/app.py" cleanFileTree = Except.ok [] ∧
    mainModel ["repo"] [⟨"repo/app.py", Except.ok cleanFileTree⟩] = Except.ok 0 :=
  c6_amended_clean_zero_findings "repo" "repo/app.py" cleanFileTree
    (by decide) (by decide) rfl rfl

/-- C7: main distinguishes three outcomes: 2 when the argument vector is
malformed (wrong length, or the -h / --help forms), in which case the
result is independent of the scan (the scan never starts); 0 when the scan
finds nothing; 1 when findings are present. -/
theorem c7_main_three_outcomes :
    (∀ (argv : List String) (scan : Except PyErr (List RELIC)),
       argv.length ≠ 1 → mainWith argv scan = Except.ok 2) ∧
    (∀ (a : String) (scan : Except PyErr (List RELIC)),
       a = "-h" ∨ a = "--help" → mainWith [a] scan = Except.ok 2) ∧
    (∀ (a : String), a ≠ "-h" → a ≠ "--help" →
       mainWith [a] (Except.ok []) = Except.ok 0) ∧
    (∀ (a : String) (rs : List RELIC), a ≠ "-h" → a ≠ "--help" → rs ≠ [] →
       mainWith [a] (Except.ok rs) = Except.ok 1) := by
  refine ⟨?_, ?_, ?_, ?_⟩
  · intro argv scan h
    match argv with
    | [] => rfl
    | [a] => exact absurd rfl h
    | a :: b :: t => rfl
  · intro a scan h
    simp only [mainWith]
    rw [if_pos h]
  · intro a h1 h2
    simp only [mainWith]
    rw [if_neg (by simp [h1, h2])]
    simp
  · intro a rs h1 h2 h3
    simp only [mainWith]
    rw [if_neg (by simp [h1, h2])]
    simp [h3]

/-- Witness for C7 at concrete argument vectors and scan outcomes. -/
theorem c7_main_three_outcomes_witness :
    mainWith ["a", "b"] (Except.ok []) = Except.ok 2 ∧
    mainWith ["-h"] (Except.error (.attributeError "BinOp" "parent")) = Except.ok 2 ∧
    mainWith ["repo"] (Except.ok []) = Except.ok 0 ∧
    mainWith ["repo"] (Except.ok [("repo/a.py", 1, 0, "xrange", "")]) = Except.ok 1 :=
  ⟨c7_main_three_outcomes.1 ["a", "b"] (Except.ok []) (by decide),
   c7_main_three_outcomes.2.1 "-h" (Except.error (.attributeError "BinOp" "parent")) (Or.inl rfl),
   c7_main_three_outcomes.2.2.1 "repo" (by decide) (by decide),
   c7_main_three_outcomes.2.2.2 "repo" [("repo/a.py", 1, 0, "xrange", "")]
     (by decide) (by decide) (by decide)⟩

/-- C8: the try/except of scan_path wraps only the read-and-parse step: a
file whose parse raised is skipped and the walk continues, while an
exception raised by the traversal of a successfully parsed file propagates
and aborts the whole scan (the remaining files are never reached and no
findings survive). -/
theorem c8_parse_only_catch :
    (∀ (p msg : String) (rest : List PyFile),
       scanPath (⟨p, Except.error msg⟩ :: rest) = scanPath rest) ∧
    (∀ (p : String) (t : PyAst) (e : PyErr) (rest : List PyFile),
       matchesPyPattern p = true → Visitor.run p t = Except.error e →
       scanPath (⟨p, Except.ok t⟩ :: rest) = Except.error e) := by
  constructor
  · intro p msg rest
    simp only [scanPath]
    split <;> rfl
  · intro p t e rest hpy hrun
    simp only [scanPath, hpy, if_true, hrun]

/-- Witness for C8: the aborting traversal at a concrete two-file scan. -/
theorem c8_parse_only_catch_witness :
    scanPath [⟨"repo/good.py", Except.ok xrangeTree⟩,
              ⟨"repo/later.py", Except.ok cleanFileTree⟩] =
      Except.error (.attributeError "textwrap" "get_source_segment") :=
  c8_parse_only_catch.2 "repo/good.py" xrangeTree
    (.attributeError "textwrap" "get_source_segment")
    [⟨"repo/later.py", Except.ok cleanFileTree⟩] (by decide) rfl

/-- C9: every finding of a traversal that returns normally has one of the
ten fixed relic kinds.  This invariant holds, though vacuously so: since
every _add call raises, a normal return carries the empty finding list. -/
theorem c9_kinds_closed :
    ∀ (f : String) (t : PyAst) (rs : List RELIC),
      Visitor.run f t = Except.ok rs →
      rs.all (fun r => relicKinds.contains (relicKind r)) = true := by
  intro f t rs h
  have hnil : rs = [] := pyVisit_ok_out f t [] rs h
  rw [hnil]
  rfl

/-- Witness for C9 at a concretely scanned empty module. -/
theorem c9_kinds_closed_witness :
    ([] : List RELIC).all (fun r => relicKinds.contains (relicKind r)) = true :=
  c9_kinds_closed "repo/empty.py" (PyAst.module .seqNil) [] rfl

/-- C10: the collector's single fixed suffix is .py: the scan outcome only
depends on the files whose name matches the rglob pattern *.py, a file with
any other suffix is ignored outright, and every finding of a normally
returning scan reports the path of a matching file (vacuously here, since a
normally returning scan has no findings). -/
theorem c10_py_suffix_only :
    (∀ (files : List PyFile),
       scanPath files = scanPath (files.filter (fun f => matchesPyPattern f.path))) ∧
    (∀ (f : PyFile) (rest : List PyFile), matchesPyPattern f.path = false →
       scanPath (f :: rest) = scanPath rest) ∧
    (∀ (files : List PyFile) (rs : List RELIC), scanPath files = Except.ok rs →
       rs.all (fun r => matchesPyPattern (relicFile r)) = true) := by
  refine ⟨scanPath_filter, ?_, ?_⟩
  · intro f rest h
    simp only [scanPath, h, Bool.false_eq_true, if_false]
  · intro files rs h
    rw [scanPath_ok_nil files rs h]
    rfl

/-- Witness for C10: a non-py file carrying matches is ignored, and a
normally returning scan satisfies the per-finding path property. -/
theorem c10_py_suffix_only_witness :
    scanPath [⟨"repo/readme.txt", Except.ok xrangeTree⟩] = scanPath [] ∧
    ([] : List RELIC).all (fun r => matchesPyPattern (relicFile r)) = true :=
  ⟨c10_py_suffix_only.2.1 ⟨"repo/readme.txt", Except.ok xrangeTree⟩ [] (by decide),
   c10_py_suffix_only.2.2 [] [] rfl⟩
